import Mathlib

/-!
Shallow embedding of the ioredis OpenTelemetry instrumentation
(packages/instrumentation-ioredis: `src/instrumentation.ts`, `src/utils.ts`).

The embedding models the two wrapped entry points (`_traceSendCommand`,
`_traceConnection`), the span-lifecycle helper `endSpan`, and the pure
attribute builder `getClientAttributes`, as functions producing an
explicit event trace (span start/end, exception recording, status
setting, hook invocations, diagnostic logging, and invocations of the
command's original resolve/reject callbacks).  JavaScript exceptions are
modelled as `Except`; the deferred settlement of a command is modelled
by invoking the (possibly substituted) resolve/reject callback behavior
after the synchronous phase of the wrapper has run.
-/

deriving instance DecidableEq for Except

namespace IORedisModel

/-- A JavaScript error object (always truthy), as typed by the source
(`NodeJS.ErrnoException`): identified by its name and message.  Error
identity ("the very same error is re-raised") is modelled as equality. -/
structure JsError where
  ename : String
  message : String
deriving DecidableEq

/-- A JavaScript value, used for command results and return values. -/
inductive JsVal
  | undef
  | jsNull
  | boolV (b : Bool)
  | numV (n : Int)
  | strV (s : String)
deriving DecidableEq

/-- Span kinds of the OpenTelemetry API; the instrumentation only ever
uses `CLIENT`. -/
inductive SpanKind
  | INTERNAL
  | SERVER
  | CLIENT
  | PRODUCER
  | CONSUMER
deriving DecidableEq

/-- `SpanStatusCode` of the OpenTelemetry API. -/
inductive SpanStatusCode
  | UNSET
  | OK
  | ERROR
deriving DecidableEq

/-- An attribute value: string, number, or `undefined` (absent host and
port propagate as `undefined` values in the attribute object). -/
inductive AttrValue
  | str (s : String)
  | num (n : Nat)
  | undef
deriving DecidableEq

/-- A JavaScript object used as an attribute map: an association list in
insertion order; assigning to an existing key overwrites in place
(`Object.assign` / property-set semantics). -/
abbrev Attributes := List (String × AttrValue)

/-- Setting a property on a JS object: overwrite in place when the key
exists, append otherwise. -/
def setAttr (m : Attributes) (k : String) (v : AttrValue) : Attributes :=
  if m.any (fun p => p.1 == k) then
    m.map (fun p => if p.1 == k then (k, v) else p)
  else
    m ++ [(k, v)]

/-- Property lookup on the attribute object. -/
def getAttr (m : Attributes) (k : String) : Option AttrValue :=
  (m.find? (fun p => p.1 == k)).map (fun p => p.2)

/-- Whether the attribute object has the key. -/
def hasAttr (m : Attributes) (k : String) : Bool :=
  m.any (fun p => p.1 == k)

/-- Modelled from the spec: legacy attribute key constant from the
component's `semconv` re-export (file not under `src/`): `db.system`. -/
def ATTR_DB_SYSTEM : String := "db.system"

/-- Modelled from the spec: legacy key `net.peer.name`. -/
def ATTR_NET_PEER_NAME : String := "net.peer.name"

/-- Modelled from the spec: legacy key `net.peer.port`. -/
def ATTR_NET_PEER_PORT : String := "net.peer.port"

/-- Modelled from the spec: legacy key for the synthesized
connection-string attribute. -/
def ATTR_DB_CONNECTION_STRING : String := "db.connection_string"

/-- Modelled from the spec: legacy statement key `db.statement`. -/
def ATTR_DB_STATEMENT : String := "db.statement"

/-- Modelled from the spec: legacy system-identifier literal "redis". -/
def DB_SYSTEM_VALUE_REDIS : String := "redis"

/-- Modelled from the spec: stable key `db.system.name` (from
`@opentelemetry/semantic-conventions`). -/
def ATTR_DB_SYSTEM_NAME : String := "db.system.name"

/-- Modelled from the spec: stable key `server.address`. -/
def ATTR_SERVER_ADDRESS : String := "server.address"

/-- Modelled from the spec: stable key `server.port`. -/
def ATTR_SERVER_PORT : String := "server.port"

/-- Modelled from the spec: stable system-name literal "redis". -/
def DB_SYSTEM_NAME_VALUE_REDIS : String := "redis"

/-- Modelled from the spec: stable query-text key `db.query.text`. -/
def ATTR_DB_QUERY_TEXT : String := "db.query.text"

/-- Modelled from the spec: stable operation-name key
`db.operation.name`. -/
def ATTR_DB_OPERATION_NAME : String := "db.operation.name"

/-- The semantic-convention stability mode: a bitset with two
independent flags.  `old` models `stability & SemconvStability.OLD`,
`stable` models `stability & SemconvStability.STABLE`. -/
structure SemconvStability where
  old : Bool
  stable : Bool
deriving DecidableEq

/-- An optional string rendered inside a JS template literal:
`undefined` prints as the string "undefined". -/
def jsShowOptStr : Option String → String
  | some s => s
  | none => "undefined"

/-- An optional number rendered inside a JS template literal. -/
def jsShowOptNat : Option Nat → String
  | some n => toString n
  | none => "undefined"

/-- The synthesized connection string `redis://{host}:{port}` from the
template literal in `getClientAttributes`. -/
def connectionString (host : Option String) (port : Option Nat) : String :=
  "redis://" ++ jsShowOptStr host ++ ":" ++ jsShowOptNat port

/-- An optional string as an attribute value (`undefined` when absent). -/
def optStrAttr : Option String → AttrValue
  | some s => AttrValue.str s
  | none => AttrValue.undef

/-- An optional number as an attribute value. -/
def optNatAttr : Option Nat → AttrValue
  | some n => AttrValue.num n
  | none => AttrValue.undef

/-- `getClientAttributes` of `src/utils.ts`: builds the flat attribute
object for the span from host, port and the active convention mode.
The two `Object.assign` calls of the source are the two key groups,
assigned in source order onto the initially empty object. -/
def getClientAttributes (host : Option String) (port : Option Nat)
    (semconvStability : SemconvStability) : Attributes :=
  let attributes : Attributes := []
  let attributes :=
    if semconvStability.old then
      setAttr (setAttr (setAttr (setAttr attributes
        ATTR_DB_SYSTEM (AttrValue.str DB_SYSTEM_VALUE_REDIS))
        ATTR_NET_PEER_NAME (optStrAttr host))
        ATTR_NET_PEER_PORT (optNatAttr port))
        ATTR_DB_CONNECTION_STRING (AttrValue.str (connectionString host port))
    else attributes
  let attributes :=
    if semconvStability.stable then
      setAttr (setAttr (setAttr attributes
        ATTR_DB_SYSTEM_NAME (AttrValue.str DB_SYSTEM_NAME_VALUE_REDIS))
        ATTR_SERVER_ADDRESS (optStrAttr host))
        ATTR_SERVER_PORT (optNatAttr port)
    else attributes
  attributes

/-- An observable event of one wrapped call: span lifecycle operations,
hook invocations, diagnostic logging, the call into the original
implementation, and invocations of the command's original resolve and
reject callbacks.  A single wrapper invocation touches at most one span,
so events need not carry a span identifier. -/
inductive Event
  | startSpan (name : String) (kind : SpanKind) (attrs : Attributes)
  | recordException (message : String)
  | setStatus (code : SpanStatusCode) (message : Option String)
  | endSpanEv
  | origCall
  | requestHookRun
  | responseHookRun
  | diagErrorLog (message : String)
  | origResolve (result : JsVal)
  | origReject (err : JsError)
deriving DecidableEq

/-- `endSpan` of `src/utils.ts`: when an error is present (an `Error`
object is always truthy), record the exception and set ERROR status with
the error's message; in every case end the span. -/
def endSpanEvents : Option JsError → List Event
  | some err =>
      [Event.recordException err.message,
       Event.setStatus SpanStatusCode.ERROR (some err.message),
       Event.endSpanEv]
  | none => [Event.endSpanEv]

/-- The possible values of the `requireParentSpan` configuration
property, sufficient to decide the strict-equality test
`config.requireParentSpan === true` of the source. -/
inductive RPSVal
  | jsTrue
  | jsFalse
  | jsUndefined
  | truthyNonBool
  | falsyNonBool
deriving DecidableEq

/-- The instrumentation configuration.  `Option` on each field models
presence of the own property in the config object (`some RPSVal.jsUndefined`
is an explicitly supplied `undefined`).  A request hook's behavior is
`none` (returns) or `some e` (throws `e`); a response hook's behavior
may depend on the result it is given. -/
structure IORedisInstrumentationConfig where
  requireParentSpan : Option RPSVal := none
  dbStatementSerializer : Option (String → List String → Option String) := none
  requestHook : Option (Option JsError) := none
  responseHook : Option (JsVal → Option JsError) := none

/-- `DEFAULT_CONFIG` of `src/instrumentation.ts`. -/
def DEFAULT_CONFIG : IORedisInstrumentationConfig :=
  { requireParentSpan := some RPSVal.jsTrue }

/-- The object spread `{ ...DEFAULT_CONFIG, ...config }` performed by the
constructor and by `setConfig`: a property present on the user object
(even with value `undefined`) wins over the default. -/
def mergeConfig (config : IORedisInstrumentationConfig) :
    IORedisInstrumentationConfig :=
  { requireParentSpan :=
      match config.requireParentSpan with
      | some v => some v
      | none => DEFAULT_CONFIG.requireParentSpan
    dbStatementSerializer := config.dbStatementSerializer
    requestHook := config.requestHook
    responseHook := config.responseHook }

/-- An ioredis `Command` as seen by the interceptor: its name and its
argument list.  Its resolve/reject callback fields are modelled outside
the structure, as the `resolveFn`/`rejectFn` behaviors of a dispatch. -/
structure IORedisCommand where
  name : String
  args : List String
deriving DecidableEq

/-- A JavaScript argument value as received by the wrapped
`sendCommand`, with enough structure to evaluate `typeof`. -/
inductive JsArg
  | cmdObj (c : IORedisCommand)
  | nullArg
  | undefArg
  | strArg (s : String)
  | numArg (n : Int)
  | boolArg (b : Bool)
deriving DecidableEq

/-- JavaScript `typeof x === 'object'`.  Note `typeof null` is
`'object'`. -/
def typeofIsObject : JsArg → Bool
  | JsArg.cmdObj _ => true
  | JsArg.nullArg => true
  | _ => false

/-- The TypeError thrown by `cmd.name` when `cmd` is `null`. -/
def typeErrorReadNull : JsError :=
  { ename := "TypeError",
    message := "Cannot read properties of null (reading 'name')" }

/-- The environment of one wrapped call: the merged configuration
returned by `getConfig()`, the instance's `_semconvStability`, whether
`trace.getSpan(context.active())` is `undefined`, the client's
`options.host`/`options.port`, and the behavior of the imported
`defaultDbStatementSerializer` (an external collaborator, passed as a
parameter). -/
structure CallEnv where
  config : IORedisInstrumentationConfig
  semconv : SemconvStability
  hasNoParentSpan : Bool
  host : Option String
  port : Option Nat
  defaultSer : String → List String → Option String

/-- The outcome of the synchronous phase of the wrapped dispatch: the
value returned (or error thrown) to the caller, the events emitted so
far, and the current behavior of the command's `resolve` and `reject`
fields (substituted by the wrapper only on the normal-return path). -/
structure DispatchResult where
  ret : Except JsError JsVal
  events : List Event
  resolveFn : JsVal → List Event
  rejectFn : JsError → List Event

/-- The command's original `resolve` callback: invoking it is the
observable delivery of the result to the application. -/
def origResolveFn : JsVal → List Event := fun r => [Event.origResolve r]

/-- The command's original `reject` callback. -/
def origRejectFn : JsError → List Event := fun e => [Event.origReject e]

/-- Calling the original `sendCommand` (`original.apply(this,
arguments)`) directly: one call event, the original's outcome, and
untouched callbacks. -/
def unwrappedDispatch (origSync : Except JsError JsVal) : DispatchResult :=
  { ret := origSync
    events := [Event.origCall]
    resolveFn := origResolveFn
    rejectFn := origRejectFn }

/-- `safeExecuteInTheMiddle(() => requestHook(...), e => { if (e)
diag.error(...) }, true)`: the hook runs; if it throws, the error is
logged and swallowed. -/
def requestHookEvents : Option (Option JsError) → List Event
  | none => []
  | some none => [Event.requestHookRun]
  | some (some _) =>
      [Event.requestHookRun,
       Event.diagErrorLog "ioredis instrumentation: request hook failed"]

/-- The guarded `config.responseHook?.(span, cmd.name, cmd.args, result)`
call inside the substituted resolve callback. -/
def responseHookEvents (hook : Option (JsVal → Option JsError)) (r : JsVal) :
    List Event :=
  match hook with
  | none => []
  | some f =>
      match f r with
      | none => [Event.responseHookRun]
      | some _ =>
          [Event.responseHookRun,
           Event.diagErrorLog "ioredis instrumentation: response hook failed"]

/-- `dbStatementSerializer(cmd.name, cmd.args)` where the serializer is
`config.dbStatementSerializer || defaultDbStatementSerializer` (a
configured serializer function is truthy). -/
def serializedStatement (env : CallEnv) (cmd : IORedisCommand) : Option String :=
  (match env.config.dbStatementSerializer with
   | some f => f
   | none => env.defaultSer) cmd.name cmd.args

/-- The attribute object assembled by `_traceSendCommand` before
`startSpan`: client attributes, the operation name under STABLE, and
the serialized statement under each active mode when serialization
produced a non-null (`!= null`) value. -/
def commandAttributes (env : CallEnv) (cmd : IORedisCommand) : Attributes :=
  let attributes := getClientAttributes env.host env.port env.semconv
  let attributes :=
    if env.semconv.stable then
      setAttr attributes ATTR_DB_OPERATION_NAME (AttrValue.str cmd.name)
    else attributes
  match serializedStatement env cmd with
  | none => attributes
  | some stmt =>
      let attributes :=
        if env.semconv.old then
          setAttr attributes ATTR_DB_STATEMENT (AttrValue.str stmt)
        else attributes
      if env.semconv.stable then
        setAttr attributes ATTR_DB_QUERY_TEXT (AttrValue.str stmt)
      else attributes

/-- The main traced path of `_traceSendCommand`, after both guards have
passed with a command object in hand: start the span, run the request
hook guarded, call the original dispatch; on normal return substitute
the command's resolve/reject callbacks, on synchronous throw close the
span with the error and re-throw. -/
def tracedDispatch (env : CallEnv) (cmd : IORedisCommand)
    (origSync : Except JsError JsVal) : DispatchResult :=
  let preEvents :=
    Event.startSpan cmd.name SpanKind.CLIENT (commandAttributes env cmd) ::
      (requestHookEvents env.config.requestHook ++ [Event.origCall])
  match origSync with
  | Except.error e =>
      { ret := Except.error e
        events := preEvents ++ endSpanEvents (some e)
        resolveFn := origResolveFn
        rejectFn := origRejectFn }
  | Except.ok v =>
      { ret := Except.ok v
        events := preEvents
        resolveFn := fun r =>
          responseHookEvents env.config.responseHook r ++
            endSpanEvents none ++ [Event.origResolve r]
        rejectFn := fun e =>
          endSpanEvents (some e) ++ [Event.origReject e] }

/-- `_traceSendCommand` of `src/instrumentation.ts`: the returned
wrapper function, for one invocation with argument list `callArgs`,
where the original implementation's synchronous behavior on these
arguments is `origSync`. -/
def traceSendCommand (env : CallEnv) (callArgs : List JsArg)
    (origSync : Except JsError JsVal) : DispatchResult :=
  if callArgs.length < 1 ∨ typeofIsObject (callArgs.headD JsArg.undefArg) = false then
    unwrappedDispatch origSync
  else if env.config.requireParentSpan = some RPSVal.jsTrue ∧ env.hasNoParentSpan then
    unwrappedDispatch origSync
  else
    match callArgs.headD JsArg.undefArg with
    | JsArg.cmdObj cmd => tracedDispatch env cmd origSync
    | _ =>
        { ret := Except.error typeErrorReadNull
          events := []
          resolveFn := origResolveFn
          rejectFn := origRejectFn }

/-- The attribute object assembled by `_traceConnection`. -/
def connectionAttributes (env : CallEnv) : Attributes :=
  let attributes := getClientAttributes env.host env.port env.semconv
  let attributes :=
    if env.semconv.old then
      setAttr attributes ATTR_DB_STATEMENT (AttrValue.str "connect")
    else attributes
  if env.semconv.stable then
    setAttr attributes ATTR_DB_QUERY_TEXT (AttrValue.str "connect")
  else attributes

/-- `_traceConnection` of `src/instrumentation.ts`: the returned wrapper
function, for one invocation where the original `connect`'s synchronous
behavior is `origSync`.  Returns the caller-visible outcome and the
event trace. -/
def traceConnection (env : CallEnv) (origSync : Except JsError JsVal) :
    Except JsError JsVal × List Event :=
  if env.config.requireParentSpan = some RPSVal.jsTrue ∧ env.hasNoParentSpan then
    (origSync, [Event.origCall])
  else
    let preEvents :=
      [Event.startSpan "connect" SpanKind.CLIENT (connectionAttributes env),
       Event.origCall]
    match origSync with
    | Except.ok v => (Except.ok v, preEvents ++ endSpanEvents none)
    | Except.error e => (Except.error e, preEvents ++ endSpanEvents (some e))

/-- One complete life of a dispatched command: either the original
dispatch throws synchronously (no settlement can follow), or it returns
normally and the command's deferred result later settles by calling the
command's current resolve (success) or reject (failure) callback. -/
inductive CmdExitPath
  | syncThrow (e : JsError)
  | normalThenResolve (ret : JsVal) (r : JsVal)
  | normalThenReject (ret : JsVal) (e : JsError)

/-- The original dispatch's synchronous behavior on each exit path. -/
def origSyncOf : CmdExitPath → Except JsError JsVal
  | CmdExitPath.syncThrow e => Except.error e
  | CmdExitPath.normalThenResolve v _ => Except.ok v
  | CmdExitPath.normalThenReject v _ => Except.ok v

/-- Whether the underlying operation failed on this exit path. -/
def pathFailed : CmdExitPath → Bool
  | CmdExitPath.syncThrow _ => true
  | CmdExitPath.normalThenResolve _ _ => false
  | CmdExitPath.normalThenReject _ _ => true

/-- The complete event trace of one dispatched command along an exit
path: the synchronous phase followed, on the normal-return paths, by the
invocation of the command's (possibly substituted) callback. -/
def commandFullTrace (env : CallEnv) (callArgs : List JsArg)
    (path : CmdExitPath) : List Event :=
  let dr := traceSendCommand env callArgs (origSyncOf path)
  match path with
  | CmdExitPath.syncThrow _ => dr.events
  | CmdExitPath.normalThenResolve _ r => dr.events ++ dr.resolveFn r
  | CmdExitPath.normalThenReject _ e => dr.events ++ dr.rejectFn e

/-- Number of times the span-end operation ran in a trace. -/
def countEnd : List Event → Nat
  | [] => 0
  | Event.endSpanEv :: tr => countEnd tr + 1
  | _ :: tr => countEnd tr

/-- Recognizer for span-start events. -/
def isStartSpanEv : Event → Bool
  | Event.startSpan _ _ _ => true
  | _ => false

/-- Recognizer for exception-recording events. -/
def isRecordExceptionEv : Event → Bool
  | Event.recordException _ => true
  | _ => false

/-- Recognizer for ERROR status-setting events. -/
def isErrorStatusEv : Event → Bool
  | Event.setStatus SpanStatusCode.ERROR _ => true
  | _ => false

/-- Recognizer for OK status-setting events. -/
def isOkStatusEv : Event → Bool
  | Event.setStatus SpanStatusCode.OK _ => true
  | _ => false

/-- Whether a span-start operation ran in a trace. -/
def spanStarted (tr : List Event) : Bool :=
  tr.any isStartSpanEv

/-- Whether an exception was recorded in the trace. -/
def exceptionRecorded (tr : List Event) : Bool :=
  tr.any isRecordExceptionEv

/-- Whether ERROR status was set in the trace. -/
def errorStatusSet (tr : List Event) : Bool :=
  tr.any isErrorStatusEv

/-- Whether OK status was ever explicitly set in the trace. -/
def okStatusSet (tr : List Event) : Bool :=
  tr.any isOkStatusEv

/-- The span was closed with error information: exception recorded and
ERROR status set. -/
def closedWithError (tr : List Event) : Bool :=
  exceptionRecorded tr && errorStatusSet tr

/-- Hook-related events: hook invocations and diagnostic logging.  These
are the only events whose presence may depend on the configured hooks. -/
def isHookEvent : Event → Bool
  | Event.requestHookRun => true
  | Event.responseHookRun => true
  | Event.diagErrorLog _ => true
  | _ => false

/-- A trace with all hook-related events erased. -/
def nonHookEvents (tr : List Event) : List Event :=
  tr.filter (fun e => !isHookEvent e)

/-- Whether the original synchronous call failed. -/
def isErrOutcome : Except JsError JsVal → Bool
  | Except.error _ => true
  | Except.ok _ => false

/-- A configuration with both hooks removed (all other fields kept). -/
def stripHooksCfg (c : IORedisInstrumentationConfig) :
    IORedisInstrumentationConfig :=
  { c with requestHook := none, responseHook := none }

/-- A call environment with both hooks removed from the configuration. -/
def stripHooksEnv (env : CallEnv) : CallEnv :=
  { env with config := stripHooksCfg env.config }

/-- A simple statement serializer standing in for the external default
serializer in concrete instantiations. -/
def baseSer : String → List String → Option String := fun n _ => some n

/-- A concrete merged configuration equal to the default configuration. -/
def baseConfig : IORedisInstrumentationConfig :=
  { requireParentSpan := some RPSVal.jsTrue }

/-- A concrete call environment with a parent span active. -/
def baseEnv : CallEnv :=
  { config := baseConfig
    semconv := { old := true, stable := false }
    hasNoParentSpan := false
    host := some "localhost"
    port := some 6379
    defaultSer := baseSer }

/-- A concrete command. -/
def baseCmd : IORedisCommand := { name := "get", args := ["foo"] }

/-- A concrete error. -/
def baseErr : JsError := { ename := "ReplyError", message := "boom" }

/-- A user configuration that explicitly supplies `requireParentSpan:
undefined`. -/
def c9UserConfig : IORedisInstrumentationConfig :=
  { requireParentSpan := some RPSVal.jsUndefined }

/-- The environment after merging `c9UserConfig` onto the defaults, with
no ambient span. -/
def c9Env : CallEnv :=
  { baseEnv with
    config := mergeConfig c9UserConfig
    hasNoParentSpan := true }


/-- The environment of C7's witness: both hooks configured and both
throwing. -/
def c7Env : CallEnv :=
  { baseEnv with
    config :=
      { baseConfig with
        requestHook := some (some { ename := "Error", message := "rq" })
        responseHook := some (fun _ => some { ename := "Error", message := "rs" }) } }

/-- The environment of C8's witness: a custom statement serializer that
returns null, in dual convention mode. -/
def c8Env : CallEnv :=
  { baseEnv with
    config := { baseConfig with dbStatementSerializer := some (fun _ _ => none) }
    semconv := { old := true, stable := true } }

theorem countEnd_append (l1 l2 : List Event) :
    countEnd (l1 ++ l2) = countEnd l1 + countEnd l2 := by
  induction l1 with
  | nil => simp [countEnd]
  | cons x xs ih => cases x <;> simp [countEnd, ih] <;> omega

theorem requestHookEvents_props (hk : Option (Option JsError)) :
    countEnd (requestHookEvents hk) = 0 ∧
    spanStarted (requestHookEvents hk) = false ∧
    exceptionRecorded (requestHookEvents hk) = false ∧
    errorStatusSet (requestHookEvents hk) = false ∧
    okStatusSet (requestHookEvents hk) = false ∧
    nonHookEvents (requestHookEvents hk) = [] := by
  rcases hk with _ | (_ | e) <;> exact ⟨rfl, rfl, rfl, rfl, rfl, rfl⟩

theorem responseHookEvents_props (hk : Option (JsVal → Option JsError))
    (r : JsVal) :
    countEnd (responseHookEvents hk r) = 0 ∧
    spanStarted (responseHookEvents hk r) = false ∧
    exceptionRecorded (responseHookEvents hk r) = false ∧
    errorStatusSet (responseHookEvents hk r) = false ∧
    okStatusSet (responseHookEvents hk r) = false ∧
    nonHookEvents (responseHookEvents hk r) = [] := by
  rcases hk with _ | f
  · exact ⟨rfl, rfl, rfl, rfl, rfl, rfl⟩
  · rcases hfr : f r with _ | e <;>
      simp only [responseHookEvents, hfr] <;>
      exact ⟨rfl, rfl, rfl, rfl, rfl, rfl⟩

theorem stripHooks_core (env : CallEnv) (callArgs : List JsArg)
    (o : Except JsError JsVal) :
    (traceSendCommand env callArgs o).ret =
      (traceSendCommand (stripHooksEnv env) callArgs o).ret ∧
    nonHookEvents (traceSendCommand env callArgs o).events =
      nonHookEvents (traceSendCommand (stripHooksEnv env) callArgs o).events ∧
    (∀ r, nonHookEvents ((traceSendCommand env callArgs o).resolveFn r) =
      nonHookEvents ((traceSendCommand (stripHooksEnv env) callArgs o).resolveFn r)) ∧
    (∀ e, (traceSendCommand env callArgs o).rejectFn e =
      (traceSendCommand (stripHooksEnv env) callArgs o).rejectFn e) := by
  have hattrs : ∀ cmd, commandAttributes (stripHooksEnv env) cmd =
      commandAttributes env cmd := fun _ => rfl
  have hrq : (stripHooksEnv env).config.requestHook = none := rfl
  have hrp : (stripHooksEnv env).config.responseHook = none := rfl
  have hrps : (stripHooksEnv env).config.requireParentSpan =
      env.config.requireParentSpan := rfl
  have hnps : (stripHooksEnv env).hasNoParentSpan = env.hasNoParentSpan := rfl
  rcases callArgs with _ | ⟨a, rest⟩
  · exact ⟨rfl, rfl, fun r => rfl, fun e => rfl⟩
  · cases a with
    | cmdObj cmd =>
        by_cases hg2 : env.config.requireParentSpan = some RPSVal.jsTrue ∧
          env.hasNoParentSpan
        · have e1 : traceSendCommand env (JsArg.cmdObj cmd :: rest) o =
              unwrappedDispatch o := by
            simp [traceSendCommand, typeofIsObject, hg2]
          have e2 : traceSendCommand (stripHooksEnv env) (JsArg.cmdObj cmd :: rest) o =
              unwrappedDispatch o := by
            simp [traceSendCommand, typeofIsObject, hrps, hnps, hg2]
          rw [e1, e2]
          exact ⟨rfl, rfl, fun r => rfl, fun e => rfl⟩
        · have e1 : traceSendCommand env (JsArg.cmdObj cmd :: rest) o =
              tracedDispatch env cmd o := by
            simp [traceSendCommand, typeofIsObject, hg2]
          have e2 : traceSendCommand (stripHooksEnv env) (JsArg.cmdObj cmd :: rest) o =
              tracedDispatch (stripHooksEnv env) cmd o := by
            simp [traceSendCommand, typeofIsObject, hrps, hnps, hg2]
          rw [e1, e2]
          obtain ⟨-, -, -, -, -, hqn⟩ :=
            requestHookEvents_props env.config.requestHook
          simp only [nonHookEvents, isHookEvent] at hqn
          have hqn0 : List.filter (fun e => !isHookEvent e)
              (requestHookEvents none) = [] := rfl
          simp only [nonHookEvents, isHookEvent] at hqn0
          refine ⟨?_, ?_, ?_, ?_⟩
          · cases o <;> rfl
          · cases o <;>
              simp [tracedDispatch, hattrs, hrq, nonHookEvents,
                List.filter_append, isHookEvent, endSpanEvents, hqn, hqn0]
          · intro r
            obtain ⟨-, -, -, -, -, hpn⟩ :=
              responseHookEvents_props env.config.responseHook r
            simp only [nonHookEvents, isHookEvent] at hpn
            have hpn0 : List.filter (fun e => !isHookEvent e)
                (responseHookEvents none r) = [] := rfl
            simp only [nonHookEvents, isHookEvent] at hpn0
            cases o with
            | error e => rfl
            | ok v =>
                simp [tracedDispatch, hrp, nonHookEvents,
                  List.filter_append, isHookEvent, hpn, hpn0, endSpanEvents]
          · intro e
            cases o <;> rfl
    | nullArg =>
        by_cases hg2 : env.config.requireParentSpan = some RPSVal.jsTrue ∧
          env.hasNoParentSpan
        · have e1 : traceSendCommand env (JsArg.nullArg :: rest) o =
              unwrappedDispatch o := by
            simp [traceSendCommand, typeofIsObject, hg2]
          have e2 : traceSendCommand (stripHooksEnv env) (JsArg.nullArg :: rest) o =
              unwrappedDispatch o := by
            simp [traceSendCommand, typeofIsObject, hrps, hnps, hg2]
          rw [e1, e2]
          exact ⟨rfl, rfl, fun r => rfl, fun e => rfl⟩
        · have e1 : traceSendCommand env (JsArg.nullArg :: rest) o =
              { ret := Except.error typeErrorReadNull, events := [],
                resolveFn := origResolveFn, rejectFn := origRejectFn } := by
            simp [traceSendCommand, typeofIsObject, hg2]
          have e2 : traceSendCommand (stripHooksEnv env) (JsArg.nullArg :: rest) o =
              { ret := Except.error typeErrorReadNull, events := [],
                resolveFn := origResolveFn, rejectFn := origRejectFn } := by
            simp [traceSendCommand, typeofIsObject, hrps, hnps, hg2]
          rw [e1, e2]
          exact ⟨rfl, rfl, fun r => rfl, fun e => rfl⟩
    | undefArg => exact ⟨rfl, rfl, fun r => rfl, fun e => rfl⟩
    | strArg s => exact ⟨rfl, rfl, fun r => rfl, fun e => rfl⟩
    | numArg n => exact ⟨rfl, rfl, fun r => rfl, fun e => rfl⟩
    | boolArg b => exact ⟨rfl, rfl, fun r => rfl, fun e => rfl⟩

/-- Claim C1: every span opened by the command interceptor or the
connection interceptor is closed exactly once on every exit path
(synchronous throw, deferred resolution, deferred rejection for
commands; normal synchronous return or synchronous throw for connect),
and it is closed with error information (recorded exception and ERROR
status) if and only if the underlying operation failed. -/
theorem c1_span_closed_exactly_once :
    (∀ (env : CallEnv) (cmd : IORedisCommand) (rest : List JsArg)
        (path : CmdExitPath),
      ¬ (env.config.requireParentSpan = some RPSVal.jsTrue ∧
        env.hasNoParentSpan) →
      countEnd (commandFullTrace env (JsArg.cmdObj cmd :: rest) path) = 1 ∧
      closedWithError (commandFullTrace env (JsArg.cmdObj cmd :: rest) path) =
        pathFailed path) ∧
    (∀ (env : CallEnv) (origSync : Except JsError JsVal),
      ¬ (env.config.requireParentSpan = some RPSVal.jsTrue ∧
        env.hasNoParentSpan) →
      countEnd (traceConnection env origSync).2 = 1 ∧
      closedWithError (traceConnection env origSync).2 = isErrOutcome origSync) := by
  constructor
  · intro env cmd rest path hguard
    have hred : ∀ o, traceSendCommand env (JsArg.cmdObj cmd :: rest) o =
        tracedDispatch env cmd o := by
      intro o
      simp [traceSendCommand, typeofIsObject, hguard]
    obtain ⟨hqc, -, hqe, hqer, -, -⟩ :=
      requestHookEvents_props env.config.requestHook
    simp only [exceptionRecorded, errorStatusSet] at hqe hqer
    cases path with
    | syncThrow e =>
        simp [commandFullTrace, origSyncOf, hred, tracedDispatch, pathFailed,
          countEnd, countEnd_append, hqc, endSpanEvents, closedWithError,
          exceptionRecorded, errorStatusSet, List.any_append, hqe, hqer,
          isRecordExceptionEv, isErrorStatusEv]
    | normalThenResolve v r =>
        obtain ⟨hrc, -, hre, hrer, -, -⟩ :=
          responseHookEvents_props env.config.responseHook r
        simp only [exceptionRecorded, errorStatusSet] at hre hrer
        simp [commandFullTrace, origSyncOf, hred, tracedDispatch, pathFailed,
          countEnd, countEnd_append, hqc, hrc, endSpanEvents, closedWithError,
          exceptionRecorded, errorStatusSet, List.any_append, hqe, hqer, hre,
          hrer, isRecordExceptionEv, isErrorStatusEv]
    | normalThenReject v e =>
        simp [commandFullTrace, origSyncOf, hred, tracedDispatch, pathFailed,
          countEnd, countEnd_append, hqc, endSpanEvents, closedWithError,
          exceptionRecorded, errorStatusSet, List.any_append, hqe, hqer,
          isRecordExceptionEv, isErrorStatusEv]
  · intro env origSync hguard
    cases origSync <;>
      simp [traceConnection, hguard, countEnd, countEnd_append, endSpanEvents,
        closedWithError, exceptionRecorded, errorStatusSet, List.any_append,
        isErrOutcome, isRecordExceptionEv, isErrorStatusEv]

/-- Witness for C1 at a concrete rejected command and a successful
connect. -/
theorem c1_span_closed_exactly_once_witness :
    (countEnd (commandFullTrace baseEnv [JsArg.cmdObj baseCmd]
        (CmdExitPath.normalThenReject JsVal.undef baseErr)) = 1 ∧
      closedWithError (commandFullTrace baseEnv [JsArg.cmdObj baseCmd]
        (CmdExitPath.normalThenReject JsVal.undef baseErr)) =
        pathFailed (CmdExitPath.normalThenReject JsVal.undef baseErr)) ∧
    (countEnd (traceConnection baseEnv (Except.ok JsVal.undef)).2 = 1 ∧
      closedWithError (traceConnection baseEnv (Except.ok JsVal.undef)).2 =
        isErrOutcome (Except.ok JsVal.undef)) :=
  ⟨c1_span_closed_exactly_once.1 baseEnv baseCmd []
      (CmdExitPath.normalThenReject JsVal.undef baseErr) (by decide),
    c1_span_closed_exactly_once.2 baseEnv (Except.ok JsVal.undef) (by decide)⟩

/-- Claim C2, counterexample: on a concrete successful settlement the
span is ended and the result delivered, but no OK status is ever set on
the span (the success path calls `span.end()` without `setStatus`, so
the status remains UNSET, not OK as claimed). -/
theorem c2_ok_status_counterexample :
    Event.origResolve (JsVal.strV "bar") ∈
      commandFullTrace baseEnv [JsArg.cmdObj baseCmd]
        (CmdExitPath.normalThenResolve JsVal.undef (JsVal.strV "bar")) ∧
    Event.endSpanEv ∈
      commandFullTrace baseEnv [JsArg.cmdObj baseCmd]
        (CmdExitPath.normalThenResolve JsVal.undef (JsVal.strV "bar")) ∧
    okStatusSet (commandFullTrace baseEnv [JsArg.cmdObj baseCmd]
        (CmdExitPath.normalThenResolve JsVal.undef (JsVal.strV "bar"))) = false := by
  exact ⟨by decide, by decide, by decide⟩

/-- Claim C2 (amended): on a successful settlement the span is closed —
without error information and without any explicit status (it remains
UNSET rather than OK) — strictly before the original success callback is
invoked with the result; on a failed settlement the exception is
recorded and ERROR status set and the span closed, all strictly before
the original failure callback is invoked with the error. -/
theorem c2_span_end_precedes_callbacks (env : CallEnv) (cmd : IORedisCommand)
    (rest : List JsArg)
    (hguard : ¬ (env.config.requireParentSpan = some RPSVal.jsTrue ∧
      env.hasNoParentSpan)) :
    (∀ (ret r : JsVal), ∃ l1 l2,
      commandFullTrace env (JsArg.cmdObj cmd :: rest)
          (CmdExitPath.normalThenResolve ret r) =
        l1 ++ Event.origResolve r :: l2 ∧
      Event.endSpanEv ∈ l1 ∧
      closedWithError (l1 ++ Event.origResolve r :: l2) = false ∧
      okStatusSet (l1 ++ Event.origResolve r :: l2) = false) ∧
    (∀ (ret : JsVal) (e : JsError), ∃ l1 l2,
      commandFullTrace env (JsArg.cmdObj cmd :: rest)
          (CmdExitPath.normalThenReject ret e) =
        l1 ++ Event.origReject e :: l2 ∧
      Event.endSpanEv ∈ l1 ∧
      Event.recordException e.message ∈ l1 ∧
      Event.setStatus SpanStatusCode.ERROR (some e.message) ∈ l1 ∧
      closedWithError (l1 ++ Event.origReject e :: l2) = true) := by
  have hred : ∀ o, traceSendCommand env (JsArg.cmdObj cmd :: rest) o =
      tracedDispatch env cmd o := by
    intro o
    simp [traceSendCommand, typeofIsObject, hguard]
  obtain ⟨hqc, -, hqe, hqer, hqok, -⟩ :=
    requestHookEvents_props env.config.requestHook
  simp only [exceptionRecorded, errorStatusSet, okStatusSet] at hqe hqer hqok
  constructor
  · intro ret r
    obtain ⟨hrc, -, hre, hrer, hrok, -⟩ :=
      responseHookEvents_props env.config.responseHook r
    simp only [exceptionRecorded, errorStatusSet, okStatusSet] at hre hrer hrok
    refine ⟨Event.startSpan cmd.name SpanKind.CLIENT (commandAttributes env cmd) ::
        (requestHookEvents env.config.requestHook ++ [Event.origCall]) ++
        responseHookEvents env.config.responseHook r ++ [Event.endSpanEv],
      [], ?_, ?_, ?_, ?_⟩
    · simp [commandFullTrace, hred, tracedDispatch, origSyncOf, endSpanEvents]
    · simp
    · simp [closedWithError, exceptionRecorded, errorStatusSet, List.any_append,
        hqe, hqer, hre, hrer, isRecordExceptionEv, isErrorStatusEv]
    · simp [okStatusSet, List.any_append, hqok, hrok, isOkStatusEv]
  · intro ret e
    refine ⟨Event.startSpan cmd.name SpanKind.CLIENT (commandAttributes env cmd) ::
        (requestHookEvents env.config.requestHook ++ [Event.origCall]) ++
        [Event.recordException e.message,
         Event.setStatus SpanStatusCode.ERROR (some e.message), Event.endSpanEv],
      [], ?_, ?_, ?_, ?_, ?_⟩
    · simp [commandFullTrace, hred, tracedDispatch, origSyncOf, endSpanEvents]
    · simp
    · simp
    · simp
    · simp [closedWithError, exceptionRecorded, errorStatusSet, List.any_append,
        hqe, hqer, isRecordExceptionEv, isErrorStatusEv]

/-- Witness for C2's amended theorem at a concrete resolution and a
concrete rejection. -/
theorem c2_span_end_precedes_callbacks_witness :
    (∃ l1 l2,
      commandFullTrace baseEnv [JsArg.cmdObj baseCmd]
          (CmdExitPath.normalThenResolve JsVal.undef (JsVal.strV "bar")) =
        l1 ++ Event.origResolve (JsVal.strV "bar") :: l2 ∧
      Event.endSpanEv ∈ l1 ∧
      closedWithError (l1 ++ Event.origResolve (JsVal.strV "bar") :: l2) = false ∧
      okStatusSet (l1 ++ Event.origResolve (JsVal.strV "bar") :: l2) = false) ∧
    (∃ l1 l2,
      commandFullTrace baseEnv [JsArg.cmdObj baseCmd]
          (CmdExitPath.normalThenReject JsVal.undef baseErr) =
        l1 ++ Event.origReject baseErr :: l2 ∧
      Event.endSpanEv ∈ l1 ∧
      Event.recordException baseErr.message ∈ l1 ∧
      Event.setStatus SpanStatusCode.ERROR (some baseErr.message) ∈ l1 ∧
      closedWithError (l1 ++ Event.origReject baseErr :: l2) = true) :=
  ⟨(c2_span_end_precedes_callbacks baseEnv baseCmd [] (by decide)).1 JsVal.undef
      (JsVal.strV "bar"),
    (c2_span_end_precedes_callbacks baseEnv baseCmd [] (by decide)).2 JsVal.undef
      baseErr⟩

/-- Claim C3, counterexample: invoked with the single argument `null`
while a parent span is active, the wrapper does not delegate to the
original implementation: reading `cmd.name` throws a TypeError (JS
`typeof null` is `'object'`, so the non-object guard does not fire),
the original is never called, and the caller sees the TypeError instead
of the original's return value `"OK"`. -/
theorem c3_null_arg_counterexample :
    (traceSendCommand baseEnv [JsArg.nullArg] (Except.ok (JsVal.strV "OK"))).ret =
      Except.error typeErrorReadNull ∧
    (unwrappedDispatch (Except.ok (JsVal.strV "OK"))).ret =
      Except.ok (JsVal.strV "OK") ∧
    (traceSendCommand baseEnv [JsArg.nullArg] (Except.ok (JsVal.strV "OK"))).events =
      [] ∧
    (unwrappedDispatch (Except.ok (JsVal.strV "OK"))).events = [Event.origCall] := by
  exact ⟨by decide, by decide, by decide, by decide⟩

/-- Claim C3 (amended): for every invocation with no argument, or with a
first argument whose JS `typeof` is not `'object'`, the wrapper behaves
identically to the unwrapped dispatch (same return or throw, one call
into the original, untouched callbacks) and creates no span.  A null
first argument is not covered by this guard, since `typeof null` is
`'object'`. -/
theorem c3_nonobject_guard_delegates (env : CallEnv) (callArgs : List JsArg)
    (origSync : Except JsError JsVal)
    (h : callArgs = [] ∨ typeofIsObject (callArgs.headD JsArg.undefArg) = false) :
    traceSendCommand env callArgs origSync = unwrappedDispatch origSync ∧
    spanStarted (traceSendCommand env callArgs origSync).events = false := by
  have hg : callArgs.length < 1 ∨
      typeofIsObject (callArgs.headD JsArg.undefArg) = false := by
    rcases h with h | h
    · subst h
      exact Or.inl (by simp)
    · exact Or.inr h
  constructor
  · unfold traceSendCommand
    rw [if_pos hg]
  · unfold traceSendCommand
    rw [if_pos hg]
    simp [unwrappedDispatch, spanStarted, isStartSpanEv]

/-- Witness for C3's amended theorem: a string first argument delegates
unchanged. -/
theorem c3_nonobject_guard_delegates_witness :
    traceSendCommand baseEnv [JsArg.strArg "ping"] (Except.ok JsVal.undef) =
      unwrappedDispatch (Except.ok JsVal.undef) ∧
    spanStarted (traceSendCommand baseEnv [JsArg.strArg "ping"]
      (Except.ok JsVal.undef)).events = false :=
  c3_nonobject_guard_delegates baseEnv [JsArg.strArg "ping"] (Except.ok JsVal.undef)
    (Or.inr rfl)

/-- Claim C4: for every convention-mode value, the attribute map built
by `getClientAttributes` contains the legacy keys (with `db.system` =
"redis", peer name/port, and the synthesized `redis://{host}:{port}`
connection string) iff the OLD flag is set, and the new keys (with
`db.system.name` = "redis", server address/port) iff the STABLE flag is
set; the two key groups are disjoint, so in dual mode both groups are
present with no collision.  The builder is a pure Lean function, so
determinism and absence of side effects hold by construction. -/
theorem c4_client_attributes_by_mode (host : Option String) (port : Option Nat)
    (s : SemconvStability) :
    (hasAttr (getClientAttributes host port s) ATTR_DB_SYSTEM = s.old ∧
     hasAttr (getClientAttributes host port s) ATTR_NET_PEER_NAME = s.old ∧
     hasAttr (getClientAttributes host port s) ATTR_NET_PEER_PORT = s.old ∧
     hasAttr (getClientAttributes host port s) ATTR_DB_CONNECTION_STRING = s.old) ∧
    (hasAttr (getClientAttributes host port s) ATTR_DB_SYSTEM_NAME = s.stable ∧
     hasAttr (getClientAttributes host port s) ATTR_SERVER_ADDRESS = s.stable ∧
     hasAttr (getClientAttributes host port s) ATTR_SERVER_PORT = s.stable) ∧
    (s.old = true →
      getAttr (getClientAttributes host port s) ATTR_DB_SYSTEM =
        some (AttrValue.str "redis") ∧
      getAttr (getClientAttributes host port s) ATTR_NET_PEER_NAME =
        some (optStrAttr host) ∧
      getAttr (getClientAttributes host port s) ATTR_NET_PEER_PORT =
        some (optNatAttr port) ∧
      getAttr (getClientAttributes host port s) ATTR_DB_CONNECTION_STRING =
        some (AttrValue.str ("redis://" ++ jsShowOptStr host ++ ":" ++
          jsShowOptNat port))) ∧
    (s.stable = true →
      getAttr (getClientAttributes host port s) ATTR_DB_SYSTEM_NAME =
        some (AttrValue.str "redis") ∧
      getAttr (getClientAttributes host port s) ATTR_SERVER_ADDRESS =
        some (optStrAttr host) ∧
      getAttr (getClientAttributes host port s) ATTR_SERVER_PORT =
        some (optNatAttr port)) ∧
    (([ATTR_DB_SYSTEM, ATTR_NET_PEER_NAME, ATTR_NET_PEER_PORT,
       ATTR_DB_CONNECTION_STRING].all (fun k =>
        !([ATTR_DB_SYSTEM_NAME, ATTR_SERVER_ADDRESS, ATTR_SERVER_PORT].contains k))) =
      true) := by
  obtain ⟨o, st⟩ := s
  cases o <;> cases st <;>
    simp [getClientAttributes, setAttr, getAttr, hasAttr, connectionString,
      ATTR_DB_SYSTEM, ATTR_NET_PEER_NAME, ATTR_NET_PEER_PORT,
      ATTR_DB_CONNECTION_STRING, ATTR_DB_SYSTEM_NAME, ATTR_SERVER_ADDRESS,
      ATTR_SERVER_PORT, DB_SYSTEM_VALUE_REDIS, DB_SYSTEM_NAME_VALUE_REDIS,
      List.find?]

/-- Witness for C4 in dual mode at a concrete host and port. -/
theorem c4_client_attributes_by_mode_witness :
    getAttr (getClientAttributes (some "localhost") (some 6379) ⟨true, true⟩)
        ATTR_DB_SYSTEM = some (AttrValue.str "redis") ∧
    getAttr (getClientAttributes (some "localhost") (some 6379) ⟨true, true⟩)
        ATTR_SERVER_PORT = some (optNatAttr (some 6379)) :=
  ⟨((c4_client_attributes_by_mode (some "localhost") (some 6379)
      ⟨true, true⟩).2.2.1 rfl).1,
    ((c4_client_attributes_by_mode (some "localhost") (some 6379)
      ⟨true, true⟩).2.2.2.1 rfl).2.2⟩

/-- Claim C5: a synchronous throw from the wrapped dispatch or connect,
or a deferred failure, is recorded on the span as an exception with
ERROR status and the very same error is then re-raised (synchronous
case) or forwarded unchanged to the original failure callback (deferred
case); a normal return's value is returned to the caller unchanged. -/
theorem c5_failure_recorded_and_propagated :
    (∀ (env : CallEnv) (cmd : IORedisCommand) (rest : List JsArg) (e : JsError),
      ¬ (env.config.requireParentSpan = some RPSVal.jsTrue ∧
        env.hasNoParentSpan) →
      (traceSendCommand env (JsArg.cmdObj cmd :: rest) (Except.error e)).ret =
        Except.error e ∧
      Event.recordException e.message ∈
        (traceSendCommand env (JsArg.cmdObj cmd :: rest) (Except.error e)).events ∧
      Event.setStatus SpanStatusCode.ERROR (some e.message) ∈
        (traceSendCommand env (JsArg.cmdObj cmd :: rest) (Except.error e)).events) ∧
    (∀ (env : CallEnv) (cmd : IORedisCommand) (rest : List JsArg) (v : JsVal),
      ¬ (env.config.requireParentSpan = some RPSVal.jsTrue ∧
        env.hasNoParentSpan) →
      (traceSendCommand env (JsArg.cmdObj cmd :: rest) (Except.ok v)).ret =
        Except.ok v) ∧
    (∀ (env : CallEnv) (cmd : IORedisCommand) (rest : List JsArg) (v : JsVal)
        (e : JsError),
      ¬ (env.config.requireParentSpan = some RPSVal.jsTrue ∧
        env.hasNoParentSpan) →
      (traceSendCommand env (JsArg.cmdObj cmd :: rest) (Except.ok v)).rejectFn e =
        [Event.recordException e.message,
         Event.setStatus SpanStatusCode.ERROR (some e.message),
         Event.endSpanEv, Event.origReject e]) ∧
    (∀ (env : CallEnv) (e : JsError),
      ¬ (env.config.requireParentSpan = some RPSVal.jsTrue ∧
        env.hasNoParentSpan) →
      (traceConnection env (Except.error e)).1 = Except.error e ∧
      Event.recordException e.message ∈ (traceConnection env (Except.error e)).2 ∧
      Event.setStatus SpanStatusCode.ERROR (some e.message) ∈
        (traceConnection env (Except.error e)).2) ∧
    (∀ (env : CallEnv) (v : JsVal),
      (traceConnection env (Except.ok v)).1 = Except.ok v) := by
  refine ⟨?_, ?_, ?_, ?_, ?_⟩
  · intro env cmd rest e hguard
    have hred : traceSendCommand env (JsArg.cmdObj cmd :: rest) (Except.error e) =
        tracedDispatch env cmd (Except.error e) := by
      simp [traceSendCommand, typeofIsObject, hguard]
    rw [hred]
    refine ⟨rfl, ?_, ?_⟩ <;> simp [tracedDispatch, endSpanEvents]
  · intro env cmd rest v hguard
    have hred : traceSendCommand env (JsArg.cmdObj cmd :: rest) (Except.ok v) =
        tracedDispatch env cmd (Except.ok v) := by
      simp [traceSendCommand, typeofIsObject, hguard]
    rw [hred]
    rfl
  · intro env cmd rest v e hguard
    have hred : traceSendCommand env (JsArg.cmdObj cmd :: rest) (Except.ok v) =
        tracedDispatch env cmd (Except.ok v) := by
      simp [traceSendCommand, typeofIsObject, hguard]
    rw [hred]
    rfl
  · intro env e hguard
    refine ⟨?_, ?_, ?_⟩ <;>
      simp [traceConnection, hguard, endSpanEvents]
  · intro env v
    by_cases hguard : env.config.requireParentSpan = some RPSVal.jsTrue ∧
        env.hasNoParentSpan
    · simp [traceConnection, hguard]
    · simp [traceConnection, hguard]

theorem c5_failure_recorded_and_propagated_witness :
    ((traceSendCommand baseEnv [JsArg.cmdObj baseCmd]
        (Except.error baseErr)).ret = Except.error baseErr ∧
      Event.recordException baseErr.message ∈
        (traceSendCommand baseEnv [JsArg.cmdObj baseCmd]
          (Except.error baseErr)).events ∧
      Event.setStatus SpanStatusCode.ERROR (some baseErr.message) ∈
        (traceSendCommand baseEnv [JsArg.cmdObj baseCmd]
          (Except.error baseErr)).events) ∧
    ((traceSendCommand baseEnv [JsArg.cmdObj baseCmd]
        (Except.ok (JsVal.strV "bar"))).ret = Except.ok (JsVal.strV "bar")) ∧
    ((traceSendCommand baseEnv [JsArg.cmdObj baseCmd]
        (Except.ok (JsVal.strV "bar"))).rejectFn baseErr =
      [Event.recordException baseErr.message,
       Event.setStatus SpanStatusCode.ERROR (some baseErr.message),
       Event.endSpanEv, Event.origReject baseErr]) ∧
    ((traceConnection baseEnv (Except.error baseErr)).1 = Except.error baseErr ∧
      Event.recordException baseErr.message ∈
        (traceConnection baseEnv (Except.error baseErr)).2 ∧
      Event.setStatus SpanStatusCode.ERROR (some baseErr.message) ∈
        (traceConnection baseEnv (Except.error baseErr)).2) ∧
    ((traceConnection baseEnv (Except.ok JsVal.undef)).1 = Except.ok JsVal.undef) :=
  ⟨c5_failure_recorded_and_propagated.1 baseEnv baseCmd [] baseErr (by decide),
    c5_failure_recorded_and_propagated.2.1 baseEnv baseCmd [] (JsVal.strV "bar")
      (by decide),
    c5_failure_recorded_and_propagated.2.2.1 baseEnv baseCmd [] (JsVal.strV "bar")
      baseErr (by decide),
    c5_failure_recorded_and_propagated.2.2.2.1 baseEnv baseErr (by decide),
    c5_failure_recorded_and_propagated.2.2.2.2 baseEnv JsVal.undef⟩

/-- Claim C6: with the merged configuration's `requireParentSpan`
strictly `true` and no span active in the ambient context, both the
dispatch wrapper (on a command object) and the connect wrapper delegate
to the original with the original arguments, create no span, and return
the original outcome unchanged. -/
theorem c6_require_parent_span_bypass (env : CallEnv) (cmd : IORedisCommand)
    (rest : List JsArg) (origSync : Except JsError JsVal)
    (hrps : env.config.requireParentSpan = some RPSVal.jsTrue)
    (hnp : env.hasNoParentSpan = true) :
    (traceSendCommand env (JsArg.cmdObj cmd :: rest) origSync =
        unwrappedDispatch origSync ∧
      spanStarted (traceSendCommand env (JsArg.cmdObj cmd :: rest) origSync).events =
        false) ∧
    (traceConnection env origSync = (origSync, [Event.origCall]) ∧
      spanStarted (traceConnection env origSync).2 = false) := by
  refine ⟨⟨?_, ?_⟩, ?_, ?_⟩ <;>
    simp [traceSendCommand, traceConnection, typeofIsObject, hrps, hnp,
      unwrappedDispatch, spanStarted, isStartSpanEv]

/-- Witness for C6 at a concrete environment with no ambient span. -/
theorem c6_require_parent_span_bypass_witness :
    (traceSendCommand { baseEnv with hasNoParentSpan := true }
        [JsArg.cmdObj baseCmd] (Except.ok JsVal.undef) =
        unwrappedDispatch (Except.ok JsVal.undef) ∧
      spanStarted (traceSendCommand { baseEnv with hasNoParentSpan := true }
        [JsArg.cmdObj baseCmd] (Except.ok JsVal.undef)).events = false) ∧
    (traceConnection { baseEnv with hasNoParentSpan := true }
        (Except.ok JsVal.undef) = (Except.ok JsVal.undef, [Event.origCall]) ∧
      spanStarted (traceConnection { baseEnv with hasNoParentSpan := true }
        (Except.ok JsVal.undef)).2 = false) :=
  c6_require_parent_span_bypass { baseEnv with hasNoParentSpan := true } baseCmd []
    (Except.ok JsVal.undef) rfl rfl

/-- Claim C7: a throwing request or response hook is caught at the call
site and logged via the diagnostic channel, and is otherwise fully
suppressed: erasing hook-related events, the trace of any call equals
the trace of the same call with no hooks configured (so span creation
and closure are unaffected), and the caller-visible outcome is
identical. -/
theorem c7_hook_exceptions_suppressed :
    (∀ (env : CallEnv) (callArgs : List JsArg) (path : CmdExitPath),
      nonHookEvents (commandFullTrace env callArgs path) =
        nonHookEvents (commandFullTrace (stripHooksEnv env) callArgs path)) ∧
    (∀ (env : CallEnv) (callArgs : List JsArg) (origSync : Except JsError JsVal),
      (traceSendCommand env callArgs origSync).ret =
        (traceSendCommand (stripHooksEnv env) callArgs origSync).ret) ∧
    (∀ (env : CallEnv) (cmd : IORedisCommand) (rest : List JsArg)
        (path : CmdExitPath) (err : JsError),
      ¬ (env.config.requireParentSpan = some RPSVal.jsTrue ∧
        env.hasNoParentSpan) →
      env.config.requestHook = some (some err) →
      Event.diagErrorLog "ioredis instrumentation: request hook failed" ∈
        commandFullTrace env (JsArg.cmdObj cmd :: rest) path) ∧
    (∀ (env : CallEnv) (cmd : IORedisCommand) (rest : List JsArg)
        (ret r : JsVal) (f : JsVal → Option JsError) (err : JsError),
      ¬ (env.config.requireParentSpan = some RPSVal.jsTrue ∧
        env.hasNoParentSpan) →
      env.config.responseHook = some f → f r = some err →
      Event.diagErrorLog "ioredis instrumentation: response hook failed" ∈
        commandFullTrace env (JsArg.cmdObj cmd :: rest)
          (CmdExitPath.normalThenResolve ret r)) := by
  refine ⟨?_, ?_, ?_, ?_⟩
  · intro env callArgs path
    obtain ⟨h1, h2, h3, h4⟩ := stripHooks_core env callArgs (origSyncOf path)
    cases path with
    | syncThrow e => simpa [commandFullTrace, origSyncOf] using h2
    | normalThenResolve v r =>
        have h3r := h3 r
        simp only [nonHookEvents, origSyncOf] at h2 h3r ⊢
        simp [commandFullTrace, origSyncOf, List.filter_append, h2, h3r]
    | normalThenReject v e =>
        have h4e := h4 e
        simp only [nonHookEvents, origSyncOf] at h2 h4e ⊢
        simp [commandFullTrace, origSyncOf, List.filter_append, h2, h4e]
  · intro env callArgs origSync
    exact (stripHooks_core env callArgs origSync).1
  · intro env cmd rest path err hguard hq
    have hred : ∀ o, traceSendCommand env (JsArg.cmdObj cmd :: rest) o =
        tracedDispatch env cmd o := by
      intro o
      simp [traceSendCommand, typeofIsObject, hguard]
    cases path <;>
      simp [commandFullTrace, hred, origSyncOf, tracedDispatch, hq,
        requestHookEvents]
  · intro env cmd rest ret r f err hguard hrh hfr
    have hred : ∀ o, traceSendCommand env (JsArg.cmdObj cmd :: rest) o =
        tracedDispatch env cmd o := by
      intro o
      simp [traceSendCommand, typeofIsObject, hguard]
    simp [commandFullTrace, hred, origSyncOf, tracedDispatch, responseHookEvents,
      hrh, hfr]

/-- Witness for C7: with both hooks throwing, the non-hook trace matches
the hookless trace and both diagnostics are logged. -/
theorem c7_hook_exceptions_suppressed_witness :
    nonHookEvents (commandFullTrace c7Env [JsArg.cmdObj baseCmd]
        (CmdExitPath.normalThenResolve JsVal.undef JsVal.undef)) =
      nonHookEvents (commandFullTrace (stripHooksEnv c7Env) [JsArg.cmdObj baseCmd]
        (CmdExitPath.normalThenResolve JsVal.undef JsVal.undef)) ∧
    Event.diagErrorLog "ioredis instrumentation: request hook failed" ∈
      commandFullTrace c7Env [JsArg.cmdObj baseCmd]
        (CmdExitPath.normalThenResolve JsVal.undef JsVal.undef) ∧
    Event.diagErrorLog "ioredis instrumentation: response hook failed" ∈
      commandFullTrace c7Env [JsArg.cmdObj baseCmd]
        (CmdExitPath.normalThenResolve JsVal.undef JsVal.undef) :=
  ⟨c7_hook_exceptions_suppressed.1 c7Env [JsArg.cmdObj baseCmd]
      (CmdExitPath.normalThenResolve JsVal.undef JsVal.undef),
    c7_hook_exceptions_suppressed.2.2.1 c7Env baseCmd []
      (CmdExitPath.normalThenResolve JsVal.undef JsVal.undef)
      { ename := "Error", message := "rq" } (by decide) rfl,
    c7_hook_exceptions_suppressed.2.2.2 c7Env baseCmd [] JsVal.undef JsVal.undef
      (fun _ => some { ename := "Error", message := "rs" })
      { ename := "Error", message := "rs" } (by decide) rfl rfl⟩

/-- Claim C8: the serialized statement is attached as the legacy
statement attribute exactly when serialization produced a non-null value
and OLD is set, and as the query-text attribute exactly when it produced
a non-null value and STABLE is set — in particular a null-returning
serializer yields neither attribute in any mode; when present, both
attributes carry the serializer's value; and the assembled attribute
object is the one passed to the span start operation. -/
theorem c8_statement_attribute_iff_nonnull (env : CallEnv) (cmd : IORedisCommand)
    (rest : List JsArg) (origSync : Except JsError JsVal)
    (hguard : ¬ (env.config.requireParentSpan = some RPSVal.jsTrue ∧
      env.hasNoParentSpan)) :
    (hasAttr (commandAttributes env cmd) ATTR_DB_STATEMENT =
      ((serializedStatement env cmd).isSome && env.semconv.old)) ∧
    (hasAttr (commandAttributes env cmd) ATTR_DB_QUERY_TEXT =
      ((serializedStatement env cmd).isSome && env.semconv.stable)) ∧
    (∀ stmt, serializedStatement env cmd = some stmt →
      (env.semconv.old = true →
        getAttr (commandAttributes env cmd) ATTR_DB_STATEMENT =
          some (AttrValue.str stmt)) ∧
      (env.semconv.stable = true →
        getAttr (commandAttributes env cmd) ATTR_DB_QUERY_TEXT =
          some (AttrValue.str stmt))) ∧
    Event.startSpan cmd.name SpanKind.CLIENT (commandAttributes env cmd) ∈
      (traceSendCommand env (JsArg.cmdObj cmd :: rest) origSync).events := by
  refine ⟨?_, ?_, ?_, ?_⟩
  · rcases hst : serializedStatement env cmd with _ | stmt <;>
      rcases hsem : env.semconv with ⟨o, st⟩ <;> cases o <;> cases st <;>
      simp [commandAttributes, hst, hsem, getClientAttributes, setAttr, hasAttr,
        ATTR_DB_SYSTEM, ATTR_NET_PEER_NAME, ATTR_NET_PEER_PORT,
        ATTR_DB_CONNECTION_STRING, ATTR_DB_SYSTEM_NAME, ATTR_SERVER_ADDRESS,
        ATTR_SERVER_PORT, ATTR_DB_OPERATION_NAME, ATTR_DB_STATEMENT,
        ATTR_DB_QUERY_TEXT]
  · rcases hst : serializedStatement env cmd with _ | stmt <;>
      rcases hsem : env.semconv with ⟨o, st⟩ <;> cases o <;> cases st <;>
      simp [commandAttributes, hst, hsem, getClientAttributes, setAttr, hasAttr,
        ATTR_DB_SYSTEM, ATTR_NET_PEER_NAME, ATTR_NET_PEER_PORT,
        ATTR_DB_CONNECTION_STRING, ATTR_DB_SYSTEM_NAME, ATTR_SERVER_ADDRESS,
        ATTR_SERVER_PORT, ATTR_DB_OPERATION_NAME, ATTR_DB_STATEMENT,
        ATTR_DB_QUERY_TEXT]
  · intro stmt hst
    rcases hsem : env.semconv with ⟨o, st⟩
    cases o <;> cases st <;>
      simp [commandAttributes, hst, hsem, getClientAttributes, setAttr, getAttr,
        List.find?,
        ATTR_DB_SYSTEM, ATTR_NET_PEER_NAME, ATTR_NET_PEER_PORT,
        ATTR_DB_CONNECTION_STRING, ATTR_DB_SYSTEM_NAME, ATTR_SERVER_ADDRESS,
        ATTR_SERVER_PORT, ATTR_DB_OPERATION_NAME, ATTR_DB_STATEMENT,
        ATTR_DB_QUERY_TEXT]
  · cases origSync <;>
      simp [traceSendCommand, typeofIsObject, hguard, tracedDispatch]

/-- Witness for C8 with a null-returning custom serializer in dual mode:
neither statement attribute is present. -/
theorem c8_statement_attribute_iff_nonnull_witness :
    hasAttr (commandAttributes c8Env baseCmd) ATTR_DB_STATEMENT = false ∧
    hasAttr (commandAttributes c8Env baseCmd) ATTR_DB_QUERY_TEXT = false ∧
    Event.startSpan baseCmd.name SpanKind.CLIENT (commandAttributes c8Env baseCmd) ∈
      (traceSendCommand c8Env [JsArg.cmdObj baseCmd]
        (Except.ok JsVal.undef)).events :=
  ⟨(c8_statement_attribute_iff_nonnull c8Env baseCmd [] (Except.ok JsVal.undef)
      (by decide)).1,
    (c8_statement_attribute_iff_nonnull c8Env baseCmd [] (Except.ok JsVal.undef)
      (by decide)).2.1,
    (c8_statement_attribute_iff_nonnull c8Env baseCmd [] (Except.ok JsVal.undef)
      (by decide)).2.2.2⟩

/-- Claim C9: the require-parent-span bypass fires only when the merged
configured value is strictly the boolean `true`.  For any explicitly
configured other value (false, a truthy or falsy non-boolean, or an
explicitly supplied `undefined`, which the shallow merge copies over the
default `true`), both wrappers create a span even with no ambient span;
and with the property absent the default `true` applies and the bypass
fires. -/
theorem c9_bypass_only_strict_true :
    (∀ (user : IORedisInstrumentationConfig) (v : RPSVal) (env : CallEnv)
        (cmd : IORedisCommand) (rest : List JsArg)
        (origSync : Except JsError JsVal),
      user.requireParentSpan = some v → v ≠ RPSVal.jsTrue →
      env.config = mergeConfig user → env.hasNoParentSpan = true →
      spanStarted (traceSendCommand env (JsArg.cmdObj cmd :: rest) origSync).events =
        true ∧
      spanStarted (traceConnection env origSync).2 = true) ∧
    (∀ (user : IORedisInstrumentationConfig) (env : CallEnv)
        (cmd : IORedisCommand) (rest : List JsArg)
        (origSync : Except JsError JsVal),
      user.requireParentSpan = none →
      env.config = mergeConfig user → env.hasNoParentSpan = true →
      spanStarted (traceSendCommand env (JsArg.cmdObj cmd :: rest) origSync).events =
        false ∧
      spanStarted (traceConnection env origSync).2 = false) := by
  constructor
  · intro user v env cmd rest origSync hu hv hcfg hnp
    have hrps : env.config.requireParentSpan = some v := by
      rw [hcfg]
      simp [mergeConfig, hu]
    have hne : ¬ (env.config.requireParentSpan = some RPSVal.jsTrue ∧
        env.hasNoParentSpan) := by
      rintro ⟨h1, h2⟩
      rw [hrps] at h1
      exact hv (by simpa using h1)
    constructor
    · cases origSync <;>
        simp [traceSendCommand, typeofIsObject, hne, tracedDispatch, spanStarted,
          isStartSpanEv]
    · cases origSync <;>
        simp [traceConnection, hne, spanStarted, isStartSpanEv]
  · intro user env cmd rest origSync hu hcfg hnp
    have hrps : env.config.requireParentSpan = some RPSVal.jsTrue := by
      rw [hcfg]
      simp [mergeConfig, hu, DEFAULT_CONFIG]
    constructor
    · simp [traceSendCommand, typeofIsObject, hrps, hnp, unwrappedDispatch,
        spanStarted, isStartSpanEv]
    · simp [traceConnection, hrps, hnp, spanStarted, isStartSpanEv]

/-- Witness for C9: with `requireParentSpan: undefined` explicitly
supplied and no ambient span, spans are still created. -/
theorem c9_bypass_only_strict_true_witness :
    spanStarted (traceSendCommand c9Env [JsArg.cmdObj baseCmd]
      (Except.ok JsVal.undef)).events = true ∧
    spanStarted (traceConnection c9Env (Except.ok JsVal.undef)).2 = true :=
  c9_bypass_only_strict_true.1 c9UserConfig RPSVal.jsUndefined c9Env baseCmd []
    (Except.ok JsVal.undef) rfl (by decide) rfl rfl

/-- Claim C10: when the original dispatch throws synchronously, the
command's resolve and reject callback fields are exactly as the caller
supplied them (substitution happens only after a normal return), the
same error is re-thrown, and the span was closed once. -/
theorem c10_sync_throw_preserves_callbacks (env : CallEnv) (cmd : IORedisCommand)
    (rest : List JsArg) (e : JsError)
    (hguard : ¬ (env.config.requireParentSpan = some RPSVal.jsTrue ∧
      env.hasNoParentSpan)) :
    (traceSendCommand env (JsArg.cmdObj cmd :: rest) (Except.error e)).resolveFn =
      origResolveFn ∧
    (traceSendCommand env (JsArg.cmdObj cmd :: rest) (Except.error e)).rejectFn =
      origRejectFn ∧
    (traceSendCommand env (JsArg.cmdObj cmd :: rest) (Except.error e)).ret =
      Except.error e ∧
    countEnd (traceSendCommand env (JsArg.cmdObj cmd :: rest)
      (Except.error e)).events = 1 := by
  have hred : traceSendCommand env (JsArg.cmdObj cmd :: rest) (Except.error e) =
      tracedDispatch env cmd (Except.error e) := by
    simp [traceSendCommand, typeofIsObject, hguard]
  rw [hred]
  obtain ⟨hc, -, -, -, -, -⟩ := requestHookEvents_props env.config.requestHook
  refine ⟨rfl, rfl, rfl, ?_⟩
  simp [tracedDispatch, countEnd, countEnd_append, hc, endSpanEvents]

/-- Witness for C10 at a concrete environment and error. -/
theorem c10_sync_throw_preserves_callbacks_witness :
    (traceSendCommand baseEnv [JsArg.cmdObj baseCmd]
      (Except.error baseErr)).resolveFn = origResolveFn ∧
    (traceSendCommand baseEnv [JsArg.cmdObj baseCmd]
      (Except.error baseErr)).rejectFn = origRejectFn ∧
    (traceSendCommand baseEnv [JsArg.cmdObj baseCmd]
      (Except.error baseErr)).ret = Except.error baseErr ∧
    countEnd (traceSendCommand baseEnv [JsArg.cmdObj baseCmd]
      (Except.error baseErr)).events = 1 :=
  c10_sync_throw_preserves_callbacks baseEnv baseCmd [] baseErr (by decide)

end IORedisModel
